import Mathlib

/-
  Verification development for the SPIDER product-link crawler (src/main.py).

  The Python source is shallowly embedded below.  Pure string manipulation
  (substring tests, strip/upper/lower, splitlines, the `\$\d` price pattern,
  the scheme/netloc fragment of urllib.parse.urlparse) is translated to
  executable Lean functions on `List Char`.  External capabilities — the
  Selenium browser, the BeautifulSoup HTML parser, urllib's urljoin and the
  groq LLM client — are modelled as explicit environment parameters, and the
  exception-based failure paths of the source become explicit flags/Option
  values.  All definitions are structurally recursive so that every claim can
  be evaluated on concrete inputs by the kernel.
-/

/-! ### Python string primitives -/

/-- Membership of `needle` as a contiguous substring, i.e. Python's
`needle in haystack` and `re.search` on a literal pattern. -/
def occursIn (needle : List Char) : List Char → Bool
  | [] => needle.isEmpty
  | c :: cs => needle.isPrefixOf (c :: cs) || occursIn needle cs

/-- Python `needle in haystack` on strings. -/
def pyIn (needle haystack : String) : Bool :=
  occursIn needle.toList haystack.toList

/-- Python `str.strip()` (leading and trailing whitespace removed). -/
def pyStrip (s : List Char) : List Char :=
  ((s.dropWhile Char.isWhitespace).reverse.dropWhile Char.isWhitespace).reverse

/-- Python `str.lower()` (ASCII fragment). -/
def pyLower (s : List Char) : List Char := s.map Char.toLower

/-- Python `str.upper()` (ASCII fragment). -/
def pyUpper (s : List Char) : List Char := s.map Char.toUpper

/-- Python `str.upper()` on `String`, as used on the oracle verdict tokens. -/
def pyUpperS (s : String) : String := String.mk (pyUpper s.toList)

/-- Python `str.startswith`. -/
def pyStartsWith (s pre : String) : Bool := pre.toList.isPrefixOf s.toList

/-- Python `str.endswith` (used by `is_internal_url` for the subdomain test:
a plain string-suffix match). -/
def pyEndsWith (s suffix : String) : Bool := suffix.toList.isSuffixOf s.toList

/-- Matching of the regex `\$\d` fragment of `re.search(r"\$\d+", s)`:
some `$` immediately followed by a digit occurs in `s` (a match of `\$\d+`
exists iff a match of `\$\d` exists). -/
def hasDollarDigit : List Char → Bool
  | '$' :: c :: rest => if c.isDigit then true else hasDollarDigit (c :: rest)
  | _ :: rest => hasDollarDigit rest
  | [] => false

/-- Python `" ".join(classes)`. -/
def joinSpaceL : List String → List Char
  | [] => []
  | [s] => s.toList
  | s :: rest => s.toList ++ ' ' :: joinSpaceL rest

/-- Python `str.splitlines()` on the line terminators `\n`, `\r\n`, `\r`
(the ones that can occur in the oracle responses considered here): every
terminator ends a line, and a final unterminated segment is a line unless
it is empty. -/
def splitlinesAux (cur : List Char) : List Char → List (List Char)
  | [] => if cur.isEmpty then [] else [cur.reverse]
  | '\r' :: '\n' :: rest => cur.reverse :: splitlinesAux [] rest
  | '\n' :: rest => cur.reverse :: splitlinesAux [] rest
  | '\r' :: rest => cur.reverse :: splitlinesAux [] rest
  | c :: rest => splitlinesAux (c :: cur) rest

/-- Python `response.splitlines()`. -/
def pySplitlines (s : String) : List (List Char) := splitlinesAux [] s.toList

/-! ### The scheme/netloc fragment of `urllib.parse.urlparse` -/

/-- Characters allowed in a URL scheme by `urllib.parse`. -/
def schemeChar (c : Char) : Bool :=
  c.isAlpha || c.isDigit || c = '+' || c = '-' || c = '.'

/-- Split a character list at the first `':'`, returning the parts before and
after it (Python `url.find(':')`). -/
def splitColon : List Char → Option (List Char × List Char)
  | [] => none
  | c :: cs =>
    if c = ':' then some ([], cs)
    else (splitColon cs).map (fun p => (c :: p.1, p.2))

/-- The scheme-splitting step of `urlparse`: if the text before the first
colon is a nonempty valid scheme (leading ASCII letter, then scheme
characters), the scheme is split off and lowercased; otherwise the URL is
left whole with an empty scheme. -/
def urlsplitScheme (url : List Char) : List Char × List Char :=
  match splitColon url with
  | some (before, after) =>
    match before with
    | [] => ([], url)
    | c :: rest =>
      if c.isAlpha && (c :: rest).all schemeChar then
        ((c :: rest).map Char.toLower, after)
      else ([], url)
  | none => ([], url)

/-- The netloc of the scheme-stripped remainder: nonempty only when the
remainder starts with `//`, in which case it extends to the next `/`, `?`
or `#`. -/
def netlocOf : List Char → List Char
  | '/' :: '/' :: rest => rest.takeWhile (fun c => !(c = '/' || c = '?' || c = '#'))
  | _ => []

/-- `urlparse(url).scheme`. -/
def urlparseScheme (url : String) : String :=
  String.mk (urlsplitScheme url.toList).1

/-- `urlparse(url).netloc`. -/
def urlparseNetloc (url : String) : String :=
  String.mk (netlocOf (urlsplitScheme url.toList).2)

/-! ### `is_internal_url` (src/main.py lines 114-127) -/

/-- `is_internal_url(url, base_netloc)`: internal when the parsed netloc is
empty, equals the base netloc, or ends with the base netloc.  (On the URL
fragment modelled here `urlparse` never raises, so the `except: return False`
branch of the source is unreachable.) -/
def is_internal_url (url base_netloc : String) : Bool :=
  let netloc := urlparseNetloc url
  if netloc == "" || netloc == base_netloc then true
  else if pyEndsWith netloc base_netloc then true
  else false

/-! ### Anchors and `determine_link_type` (src/main.py lines 63-111) -/

/-- The parent element of an anchor, as seen by `determine_link_type`:
its class attribute (a token list, when the attribute is present) and its
`get_text(separator=" ", strip=True)` rendering. -/
structure ParentElem where
  classes : Option (List String)
  text : String
deriving DecidableEq

/-- An `<a>` element as consumed by the classifier: the href attribute value
(`""` standing for a missing/falsy href), the anchor's own `get_text()`, and
its parent element if any. -/
structure Anchor where
  href : String
  text : String
  parent : Option ParentElem
deriving DecidableEq

/-- The `product_keywords` list of `determine_link_type`. -/
def product_keywords : List String := ["product", "item"]

/-- `determine_link_type(a_tag)`: returns
`(direct_product, ambiguous, context_snippet)` exactly as the source does —
direct on a `/keyword/` path segment, a product-ish parent class token, a
price pattern or add-to-cart phrase in the anchor or parent text; ambiguous
when no direct signal fired but a bare keyword occurs in the href; the
context is the parent text truncated to 200 characters. -/
def determine_link_type (a : Anchor) : Bool × Bool × String :=
  if a.href = "" then (false, false, "")
  else
    let href := a.href.toList
    let d_path := product_keywords.any
      (fun kw => occursIn ('/' :: kw.toList ++ ['/']) href)
    let d_class :=
      match a.parent with
      | none => false
      | some p =>
        match p.classes with
        | none => false
        | some cls =>
          let parent_classes := joinSpaceL cls
          occursIn "product-card".toList parent_classes ||
            occursIn "product".toList parent_classes ||
            occursIn "item".toList parent_classes
    let anchor_text := pyStrip a.text.toList
    let d_text := hasDollarDigit anchor_text ||
      occursIn "add to cart".toList (pyLower anchor_text)
    let d_parent_text :=
      match a.parent with
      | none => false
      | some p => hasDollarDigit p.text.toList ||
          occursIn "add to cart".toList (pyLower p.text.toList)
    let direct_product := d_path || d_class || d_text || d_parent_text
    let ambiguous := !direct_product &&
      product_keywords.any (fun kw => occursIn kw.toList href)
    let context_snippet :=
      match a.parent with
      | some p => String.mk (p.text.toList.take 200)
      | none => ""
    (direct_product, ambiguous, context_snippet)

/-- The three-way verdict the orchestrator derives from
`determine_link_type` (src/main.py lines 226-230): `direct` ⇒ Accept,
else `ambiguous` ⇒ Ambiguous, else Reject. -/
inductive LinkVerdict where
  | Accept
  | Ambiguous
  | Reject
deriving DecidableEq

/-- Classification of one anchor as the crawl loop performs it. -/
def classify_anchor (a : Anchor) : LinkVerdict :=
  let r := determine_link_type a
  if r.1 then .Accept else if r.2.1 then .Ambiguous else .Reject

/-! ### `validate_links_with_llm` (src/main.py lines 130-175)

The groq call itself is an external capability: the model takes the
oracle's reassembled textual response as an `Option String` argument, with
`none` standing for a raised exception anywhere in the call (timeout,
transport error, malformed completion), which the source's `except` branch
turns into the empty response string. -/

/-- One step of the response-parsing loop: clean the line
(`line.strip().upper()`), append `"YES"` if it contains `YES`, else `"NO"`
if it contains `NO`, else leave the verdict list unchanged. -/
def parse_step (verdicts : List String) (line : List Char) : List String :=
  let line_clean := pyUpper (pyStrip line)
  if occursIn "YES".toList line_clean then verdicts ++ ["YES"]
  else if occursIn "NO".toList line_clean then verdicts ++ ["NO"]
  else verdicts

/-- The verdict lines parsed from an oracle response
(`for line in response.splitlines(): ...`). -/
def parse_oracle_response (response : String) : List String :=
  (pySplitlines response).foldl parse_step []

/-- `validate_links_with_llm(batch)`: parse the response (the empty string
when the LLM call raised) and pad with `"NO"` up to the batch length when
fewer verdicts were parsed. -/
def validate_links_with_llm (batch : List (String × String))
    (oracleResponse : Option String) : List String :=
  let response := oracleResponse.getD ""
  let verdicts := parse_oracle_response response
  if verdicts.length < batch.length then
    verdicts ++ List.replicate (batch.length - verdicts.length) "NO"
  else verdicts

/-! ### `fetch_category_page_content` (src/main.py lines 19-60)

The Selenium driver is modelled by `BrowserEnv`: flags for whether driver
construction, `driver.get` and `driver.execute_script` succeed or raise,
the sequence of `document.body.scrollHeight` values successive script
queries return, and the final `driver.page_source`.  `fetch_traced`
additionally records whether a session was created and whether
`driver.quit()` ran, which the source only reaches on the fully successful
path (the `except` branch returns `""` without quitting). -/

structure BrowserEnv where
  launch_ok : Bool
  navigate_ok : Bool
  script_ok : Bool
  height : Nat → Int
  page_source : String

/-- The scroll loop (lines 47-54), structurally recursing on the remaining
fuel `10 - scroll_count` in place of the `while scroll_count < 10` guard.
`height k` is the value of the `k`-th `scrollHeight` query (query 0 is the
initial read before the loop); the result is the number of times the loop
body ran. -/
def scroll_go (height : Nat → Int) (last : Int) (scroll_count : Nat) :
    Nat → Nat
  | 0 => scroll_count
  | fuel + 1 =>
    if height (scroll_count + 1) = last then scroll_count + 1
    else scroll_go height (height (scroll_count + 1)) (scroll_count + 1) fuel

/-- Number of scroll iterations the loop performs for a page whose
successive `scrollHeight` reads are `height 0, height 1, ...`. -/
def scroll_iterations (height : Nat → Int) : Nat :=
  scroll_go height (height 0) 0 10

/-- Observable outcome of one `fetch_category_page_content` call. -/
structure FetchTrace where
  launched : Bool
  quit : Bool
  iterations : Nat
  content : String

/-- `fetch_category_page_content` with its driver lifecycle made explicit.
A failure at launch never creates a session; a failure at navigation or in
script execution leaves a created session behind because the `except`
branch returns without `driver.quit()`. -/
def fetch_traced (env : BrowserEnv) (url : String) : FetchTrace :=
  if !env.launch_ok then
    { launched := false, quit := false, iterations := 0, content := "" }
  else if !env.navigate_ok then
    { launched := true, quit := false, iterations := 0, content := "" }
  else if !env.script_ok then
    { launched := true, quit := false, iterations := 0, content := "" }
  else
    { launched := true, quit := true,
      iterations := scroll_iterations env.height,
      content := env.page_source }

/-- The string `fetch_category_page_content(url)` returns: the final page
source, or `""` on any failure. -/
def fetch_category_page_content (env : BrowserEnv) (url : String) : String :=
  (fetch_traced env url).content

/-! ### `crawl_category_page` (src/main.py lines 178-247)

With `max_depth = 0` the worklist holds only the seed: the enqueue guard
`depth < max_depth` is `0 < 0` for the seed and can never add an entry, so
the `while to_visit` loop runs exactly one iteration and the crawl is the
straight-line pipeline below.  BeautifulSoup's anchor extraction and
urllib's `urljoin` are external capabilities supplied by `CrawlEnv`. -/

/-- `if not url.startswith("http"): category_url = "http://" + url`
(lines 189-192). -/
def normalize_seed (url : String) : String :=
  if !pyStartsWith url "http" then "http://" ++ url else url

/-- Python `set.add` on the insertion-ordered list representing
`product_urls`. -/
def setAdd (l : List String) (x : String) : List String :=
  if x ∈ l then l else l ++ [x]

/-- The body of the per-anchor loop (lines 218-230): resolve the href,
drop the anchor unless `is_internal_url` holds, then route it by
`determine_link_type` into the accepted URLs or the ambiguous list.
(The enqueue step of lines 232-234 is statically dead, see above.) -/
def classify_step (category_url base_netloc : String)
    (urljoin : String → String → String)
    (acc : List String × List (String × String)) (a : Anchor) :
    List String × List (String × String) :=
  let absolute_url := urljoin category_url a.href
  if !is_internal_url absolute_url base_netloc then acc
  else
    let r := determine_link_type a
    if r.1 then (setAdd acc.1 absolute_url, acc.2)
    else if r.2.1 then (acc.1, acc.2 ++ [(absolute_url, r.2.2)])
    else acc

/-- One zip step of the verdict-merge loop (lines 243-245). -/
def merge_step (us : List String) (p : (String × String) × String) :
    List String :=
  if pyUpperS p.2 == "YES" then setAdd us p.1.1 else us

/-- `for (link, _), verdict in zip(batch, verdicts): if verdict.upper() ==
"YES": product_urls.add(link)`. -/
def merge_batch_verdicts (urls : List String)
    (batch : List (String × String)) (verdicts : List String) :
    List String :=
  (batch.zip verdicts).foldl merge_step urls

/-- Partition into consecutive batches of 10
(`for i in range(0, len(ambiguous_links), batch_size)`), structurally
recursing on a fuel that `chunks10` instantiates with the list length. -/
def chunksGo : Nat → List (String × String) → List (List (String × String))
  | _, [] => []
  | 0, _ :: _ => []
  | fuel + 1, x :: xs => (x :: xs.take 9) :: chunksGo fuel (xs.drop 9)

/-- The batches of 10 the source's slicing loop produces. -/
def chunks10 (l : List (String × String)) : List (List (String × String)) :=
  chunksGo l.length l

/-- The batching loop (lines 239-245): each batch of ambiguous links is
validated against the oracle's response for it and the YES links are added
to the accepted URLs. -/
def process_batches (oracle : List (String × String) → Option String)
    (urls0 : List String) (links : List (String × String)) : List String :=
  (chunks10 links).foldl
    (fun urls batch =>
      merge_batch_verdicts urls batch
        (validate_links_with_llm batch (oracle batch)))
    urls0

/-- The external capabilities `crawl_category_page` consumes: the browser
behaviour for the seed fetch, BeautifulSoup's
`soup.find_all("a", href=True)`, `urllib.parse.urljoin`, and the LLM
response for each submitted batch (`none` = the call raised). -/
structure CrawlEnv where
  browser : BrowserEnv
  find_all_a : String → List Anchor
  urljoin : String → String → String
  oracle : List (String × String) → Option String

/-- `crawl_category_page(url)`: normalize the seed, compute the base
netloc, fetch the rendered page (an empty page short-circuits to an empty
result), classify every internal anchor, then resolve the ambiguous links
in batches of 10. -/
def crawl_category_page (env : CrawlEnv) (url : String) : List String :=
  let category_url := normalize_seed url
  let base_netloc := urlparseNetloc category_url
  let content := fetch_category_page_content env.browser category_url
  if content = "" then []
  else
    let anchors := env.find_all_a content
    let acc := anchors.foldl
      (classify_step category_url base_netloc env.urljoin) ([], [])
    process_batches env.oracle acc.1 acc.2

/-! ### Concrete environments used by the claim theorems -/

/-- A browser that succeeds and serves a fixed nonempty page. -/
def demoBrowser : BrowserEnv :=
  { launch_ok := true, navigate_ok := true, script_ok := true,
    height := fun _ => 1000, page_source := "<html>page</html>" }

/-- An anchor whose href is a `javascript:` URI and whose parent carries a
`product` class (a strong Accept signal). -/
def demoAnchorJs : Anchor :=
  { href := "javascript:alert(1)", text := "",
    parent := some { classes := some ["product"], text := "" } }

/-- A crawl environment for the seed `http://shop.example.com/sale` whose
rendered page contains only `demoAnchorJs`; its `urljoin` agrees with
urllib on the href involved (a URI with its own scheme resolves to
itself). -/
def demoEnv : CrawlEnv :=
  { browser := demoBrowser,
    find_all_a := fun _ => [demoAnchorJs],
    urljoin := fun _ href => href,
    oracle := fun _ => none }

/-- A browser whose `driver.get` raises after the session was created. -/
def leakBrowser : BrowserEnv :=
  { launch_ok := true, navigate_ok := false, script_ok := true,
    height := fun _ => 0, page_source := "<html>unreached</html>" }

/-- A batch of ten ambiguous links. -/
def demoBatch10 : List (String × String) :=
  [("http://s/a-item-1", "c1"), ("http://s/a-item-2", "c2"),
   ("http://s/a-item-3", "c3"), ("http://s/a-item-4", "c4"),
   ("http://s/a-item-5", "c5"), ("http://s/a-item-6", "c6"),
   ("http://s/a-item-7", "c7"), ("http://s/a-item-8", "c8"),
   ("http://s/a-item-9", "c9"), ("http://s/a-item-10", "c10")]

/-- An oracle response that parses to exactly four verdicts. -/
def demoResp4 : String := "1. YES\n2. NO\n3. YES\n4. NO"

/-- Scroll heights that strictly increase for three iterations and then
stabilize. -/
def demoHeights : Nat → Int := fun n => if n < 3 then (n : Int) else 3

/-! ### Shared helper lemmas -/

theorem get?_append_left {α : Type} (l₁ l₂ : List α) (i : Nat)
    (h : i < l₁.length) : (l₁ ++ l₂).get? i = l₁.get? i := by
  induction l₁ generalizing i with
  | nil => simp at h
  | cons x xs ih =>
    cases i with
    | zero => rfl
    | succ j => exact ih j (Nat.lt_of_succ_lt_succ h)

theorem get?_replicate_lt {α : Type} (a : α) (n i : Nat) (h : i < n) :
    (List.replicate n a).get? i = some a := by
  induction n generalizing i with
  | zero => omega
  | succ m ih =>
    cases i with
    | zero => rfl
    | succ j => exact ih j (by omega)

theorem get?_append_right_len {α : Type} (l₁ l₂ : List α) (i : Nat)
    (h : l₁.length ≤ i) : (l₁ ++ l₂).get? i = l₂.get? (i - l₁.length) := by
  induction l₁ generalizing i with
  | nil => simp
  | cons x xs ih =>
    cases i with
    | zero => simp at h
    | succ j =>
      simpa [Nat.succ_sub_succ] using ih j (Nat.le_of_succ_le_succ h)

theorem setAdd_mem (l : List String) (x u : String) (h : u ∈ setAdd l x) :
    u ∈ l ∨ u = x := by
  unfold setAdd at h
  by_cases hx : x ∈ l
  · rw [if_pos hx] at h; exact Or.inl h
  · rw [if_neg hx] at h
    rcases List.mem_append.1 h with h | h
    · exact Or.inl h
    · exact Or.inr (List.mem_singleton.1 h)

theorem classify_step_internal (cu base : String)
    (uj : String → String → String)
    (acc : List String × List (String × String)) (a : Anchor)
    (h1 : ∀ v ∈ acc.1, is_internal_url v base = true)
    (h2 : ∀ p ∈ acc.2, is_internal_url p.1 base = true) :
    (∀ v ∈ (classify_step cu base uj acc a).1,
        is_internal_url v base = true) ∧
    (∀ p ∈ (classify_step cu base uj acc a).2,
        is_internal_url p.1 base = true) := by
  cases hi : is_internal_url (uj cu a.href) base with
  | false =>
    constructor
    · intro v hv; exact h1 v (by simpa [classify_step, hi] using hv)
    · intro p hp; exact h2 p (by simpa [classify_step, hi] using hp)
  | true =>
    cases hd : (determine_link_type a).1 with
    | true =>
      constructor
      · intro v hv
        have hv' : v ∈ setAdd acc.1 (uj cu a.href) := by
          simpa [classify_step, hi, hd] using hv
        rcases setAdd_mem _ _ _ hv' with h | h
        · exact h1 v h
        · rw [h]; exact hi
      · intro p hp; exact h2 p (by simpa [classify_step, hi, hd] using hp)
    | false =>
      cases hamb : (determine_link_type a).2.1 with
      | true =>
        constructor
        · intro v hv
          exact h1 v (by simpa [classify_step, hi, hd, hamb] using hv)
        · intro p hp
          have hp' : p ∈ acc.2 ++
              [(uj cu a.href, (determine_link_type a).2.2)] := by
            simpa [classify_step, hi, hd, hamb] using hp
          rcases List.mem_append.1 hp' with h | h
          · exact h2 p h
          · rw [List.mem_singleton.1 h]; exact hi
      | false =>
        constructor
        · intro v hv
          exact h1 v (by simpa [classify_step, hi, hd, hamb] using hv)
        · intro p hp
          exact h2 p (by simpa [classify_step, hi, hd, hamb] using hp)

theorem fold_classify_internal (cu base : String)
    (uj : String → String → String) :
    ∀ (anchors : List Anchor)
      (acc : List String × List (String × String)),
    (∀ v ∈ acc.1, is_internal_url v base = true) →
    (∀ p ∈ acc.2, is_internal_url p.1 base = true) →
    (∀ v ∈ (anchors.foldl (classify_step cu base uj) acc).1,
        is_internal_url v base = true) ∧
    (∀ p ∈ (anchors.foldl (classify_step cu base uj) acc).2,
        is_internal_url p.1 base = true) := by
  intro anchors
  induction anchors with
  | nil => intro acc h1 h2; exact ⟨h1, h2⟩
  | cons a as ih =>
    intro acc h1 h2
    have h := classify_step_internal cu base uj acc a h1 h2
    rw [List.foldl_cons]
    exact ih (classify_step cu base uj acc a) h.1 h.2

theorem merge_fold_internal (base : String) :
    ∀ (pairs : List ((String × String) × String)) (urls : List String),
    (∀ v ∈ urls, is_internal_url v base = true) →
    (∀ q ∈ pairs, is_internal_url q.1.1 base = true) →
    ∀ v ∈ pairs.foldl merge_step urls, is_internal_url v base = true := by
  intro pairs
  induction pairs with
  | nil => intro urls h1 _ v hv; exact h1 v hv
  | cons q qs ih =>
    intro urls h1 h2 v hv
    rw [List.foldl_cons] at hv
    refine ih (merge_step urls q) ?_
      (fun r hr => h2 r (List.mem_cons_of_mem _ hr)) v hv
    intro w hw
    unfold merge_step at hw
    split at hw
    · rcases setAdd_mem _ _ _ hw with h | h
      · exact h1 w h
      · rw [h]; exact h2 q (List.mem_cons_self q qs)
    · exact h1 w hw

theorem merge_batch_internal (base : String) (urls : List String)
    (batch : List (String × String)) (verdicts : List String)
    (h1 : ∀ v ∈ urls, is_internal_url v base = true)
    (h2 : ∀ p ∈ batch, is_internal_url p.1 base = true) :
    ∀ v ∈ merge_batch_verdicts urls batch verdicts,
      is_internal_url v base = true := by
  unfold merge_batch_verdicts
  refine merge_fold_internal base (batch.zip verdicts) urls h1 ?_
  intro q hq
  obtain ⟨⟨lk, cx⟩, vd⟩ := q
  exact h2 (lk, cx) (List.of_mem_zip hq).1

theorem chunksGo_mem :
    ∀ (fuel : Nat) (l b : List (String × String)),
      b ∈ chunksGo fuel l → ∀ p ∈ b, p ∈ l := by
  intro fuel
  induction fuel with
  | zero =>
    intro l b hb
    cases l with
    | nil => simp [chunksGo] at hb
    | cons x xs => simp [chunksGo] at hb
  | succ f ih =>
    intro l b hb p hp
    cases l with
    | nil => simp [chunksGo] at hb
    | cons x xs =>
      rcases List.mem_cons.1 hb with h | h
      · rw [h] at hp
        rcases List.mem_cons.1 hp with h' | h'
        · rw [h']; exact List.mem_cons_self x xs
        · exact List.mem_cons_of_mem x (List.take_subset 9 xs h')
      · exact List.mem_cons_of_mem x
          (List.drop_subset 9 xs (ih (xs.drop 9) b h p hp))

theorem process_batches_internal (base : String)
    (oracle : List (String × String) → Option String) :
    ∀ (bs : List (List (String × String))) (urls0 : List String),
    (∀ v ∈ urls0, is_internal_url v base = true) →
    (∀ b ∈ bs, ∀ p ∈ b, is_internal_url p.1 base = true) →
    ∀ v ∈ bs.foldl
        (fun urls batch =>
          merge_batch_verdicts urls batch
            (validate_links_with_llm batch (oracle batch))) urls0,
      is_internal_url v base = true := by
  intro bs
  induction bs with
  | nil => intro urls0 h1 _ v hv; exact h1 v hv
  | cons b bs ih =>
    intro urls0 h1 h2 v hv
    rw [List.foldl_cons] at hv
    refine ih _ ?_ (fun c hc => h2 c (List.mem_cons_of_mem _ hc)) v hv
    exact merge_batch_internal base urls0 b _ h1
      (h2 b (List.mem_cons_self b bs))

theorem crawl_internal (env : CrawlEnv) (url : String) :
    ∀ u ∈ crawl_category_page env url,
      is_internal_url u (urlparseNetloc (normalize_seed url)) = true := by
  intro u hu
  simp only [crawl_category_page] at hu
  split at hu
  · simp at hu
  · have hfold := fold_classify_internal (normalize_seed url)
      (urlparseNetloc (normalize_seed url)) env.urljoin
      (env.find_all_a
        (fetch_category_page_content env.browser (normalize_seed url)))
      ([], []) (by simp) (by simp)
    unfold process_batches at hu
    exact process_batches_internal (urlparseNetloc (normalize_seed url))
      env.oracle _ _ hfold.1
      (fun b hb p hp => hfold.2 p (chunksGo_mem _ _ b hb p hp)) u hu

theorem scroll_go_le (h : Nat → Int) :
    ∀ (fuel : Nat) (last : Int) (c : Nat), scroll_go h last c fuel ≤ c + fuel := by
  intro fuel
  induction fuel with
  | zero => intro last c; simp [scroll_go]
  | succ f ih =>
    intro last c
    simp only [scroll_go]
    by_cases hh : h (c + 1) = last
    · rw [if_pos hh]; omega
    · rw [if_neg hh]
      calc scroll_go h (h (c + 1)) (c + 1) f ≤ (c + 1) + f := ih _ _
        _ = c + (f + 1) := by omega

theorem scroll_go_stab (h : Nat → Int) (k : Nat) (hk : k < 10)
    (hne : ∀ j, j < k → h (j + 1) ≠ h j) (hstab : h (k + 1) = h k) :
    ∀ (fuel c : Nat), c + fuel = 10 → c ≤ k →
      scroll_go h (h c) c fuel = k + 1 := by
  intro fuel
  induction fuel with
  | zero => intro c hc hck; exfalso; omega
  | succ f ih =>
    intro c hc hck
    simp only [scroll_go]
    by_cases hek : c = k
    · subst hek; rw [if_pos hstab]
    · have hlt : c < k := by omega
      rw [if_neg (hne c hlt)]
      exact ih (c + 1) (by omega) (by omega)

/-! ### Claim theorems -/

/-- C1 counterexample: the rendered page of `demoEnv` contains an anchor
whose resolved absolute URL `javascript:alert(1)` has a host (the empty
string) that is neither equal to the seed host `shop.example.com` nor a
suffix of it, yet — carrying a `product` parent class — it appears in the
CrawlResult, refuting the claim as stated. -/
theorem C1_counterexample :
    "javascript:alert(1)" ∈
      crawl_category_page demoEnv "http://shop.example.com/sale" ∧
    urlparseNetloc "javascript:alert(1)" ≠
      urlparseNetloc (normalize_seed "http://shop.example.com/sale") ∧
    pyEndsWith (urlparseNetloc "javascript:alert(1)")
      (urlparseNetloc (normalize_seed "http://shop.example.com/sale")) =
      false := by
  decide

/-- C1 (amended): for every crawl environment and seed, any URL whose
parsed host is nonempty and neither equals the seed's host nor has it as a
string suffix never appears in the CrawlResult — the internal-domain filter
admits only empty-host, equal-host or suffix-host URLs, regardless of any
classifier signal. -/
theorem C1_external_url_never_in_result (env : CrawlEnv) (url u : String)
    (h1 : urlparseNetloc u ≠ "")
    (h2 : urlparseNetloc u ≠ urlparseNetloc (normalize_seed url))
    (h3 : pyEndsWith (urlparseNetloc u)
      (urlparseNetloc (normalize_seed url)) = false) :
    u ∉ crawl_category_page env url := by
  intro hu
  have hint := crawl_internal env url u hu
  simp [is_internal_url, h1, h2, h3] at hint

/-- C1 witness: a concrete external URL is absent from a concrete crawl. -/
theorem C1_external_url_never_in_result_witness :
    "http://evil.com/product/1" ∉
      crawl_category_page demoEnv "http://shop.example.com/sale" :=
  C1_external_url_never_in_result demoEnv "http://shop.example.com/sale"
    "http://evil.com/product/1" (by decide) (by decide) (by decide)

/-- C2: the classifier checks the strong Accept signals first, falls back
to Ambiguous on a bare keyword in the href, and defaults to Reject:
`/product/123` is Accept, `/catalog/xyz-item-99` is Ambiguous,
`/about-us` is Reject; and in general a direct signal forces Accept while
no signal at all forces Reject. -/
theorem C2_classifier_precedence :
    classify_anchor ⟨"/product/123", "", none⟩ = .Accept ∧
    classify_anchor ⟨"/catalog/xyz-item-99", "", none⟩ = .Ambiguous ∧
    classify_anchor ⟨"/about-us", "", none⟩ = .Reject ∧
    (∀ a : Anchor, (determine_link_type a).1 = true →
      classify_anchor a = .Accept) ∧
    (∀ a : Anchor, (determine_link_type a).1 = false →
      (determine_link_type a).2.1 = false → classify_anchor a = .Reject) := by
  refine ⟨by decide, by decide, by decide, ?_, ?_⟩
  · intro a h; simp [classify_anchor, h]
  · intro a h1 h2; simp [classify_anchor, h1, h2]

/-- C2 witness: the general Accept-precedence clause at a concrete
anchor. -/
theorem C2_classifier_precedence_witness :
    classify_anchor ⟨"/item/9", "", none⟩ = LinkVerdict.Accept :=
  C2_classifier_precedence.2.2.2.1 ⟨"/item/9", "", none⟩ (by decide)

/-- C3 counterexample: a batch of one link whose oracle response parses to
two verdicts makes `validate_links_with_llm` return two verdicts, not
exactly one per batch position, refuting the claim as stated. -/
theorem C3_counterexample :
    (validate_links_with_llm [("http://s/item-x", "c")]
      (some "1. YES\n2. NO")).length ≠
    ([("http://s/item-x", "c")] : List (String × String)).length := by
  decide

/-- C3 (amended): for every batch and every oracle response (a failed call
being the zero-verdict empty response), the batcher returns, without
raising, at least one verdict per batch position: position `i` gets the
`i`-th parsed verdict when one exists and defaults to `"NO"` (Reject)
otherwise; extra parsed verdicts beyond the batch size are returned as
well (the consumer's positional zip ignores them).  In particular a batch
of 10 whose response parses to 4 verdicts yields those 4 verdicts followed
by 6 Rejects. -/
theorem C3_fail_closed_padding :
    (∀ (batch : List (String × String)) (resp : Option String),
      batch.length ≤ (validate_links_with_llm batch resp).length) ∧
    (∀ (batch : List (String × String)) (resp : Option String) (i : Nat),
      i < (parse_oracle_response (resp.getD "")).length →
      (validate_links_with_llm batch resp).get? i =
        (parse_oracle_response (resp.getD "")).get? i) ∧
    (∀ (batch : List (String × String)) (resp : Option String) (i : Nat),
      (parse_oracle_response (resp.getD "")).length ≤ i →
      i < batch.length →
      (validate_links_with_llm batch resp).get? i = some "NO") ∧
    validate_links_with_llm demoBatch10 (some demoResp4) =
      ["YES", "NO", "YES", "NO", "NO", "NO", "NO", "NO", "NO", "NO"] := by
  refine ⟨?_, ?_, ?_, by decide⟩
  · intro batch resp
    unfold validate_links_with_llm
    dsimp only
    split
    · simp only [List.length_append, List.length_replicate]; omega
    · omega
  · intro batch resp i hi
    unfold validate_links_with_llm
    dsimp only
    split
    · exact get?_append_left _ _ i hi
    · rfl
  · intro batch resp i hi hb
    unfold validate_links_with_llm
    dsimp only
    split
    · rw [get?_append_right_len _ _ i hi]
      exact get?_replicate_lt _ _ _ (by omega)
    · omega

/-- C3 witness: position 7 of the 10-batch with the 4-verdict response is
the padded Reject. -/
theorem C3_fail_closed_padding_witness :
    (validate_links_with_llm demoBatch10 (some demoResp4)).get? 7 =
      some "NO" :=
  C3_fail_closed_padding.2.2.1 demoBatch10 (some demoResp4) 7
    (by decide) (by decide)

/-- C4: verdicts map back onto batch items strictly by position: for any
two links, the response "1. NO\n2. YES" resolves the first link Reject and
the second Accept, so exactly the second is added to the result. -/
theorem C4_batch_order_preserved (urlA ctxA urlB ctxB : String) :
    merge_batch_verdicts [] [(urlA, ctxA), (urlB, ctxB)]
      (validate_links_with_llm [(urlA, ctxA), (urlB, ctxB)]
        (some "1. NO\n2. YES")) = [urlB] := by
  rfl

/-- C5: on any rendering failure (launch, navigation or script execution)
the fetch returns the empty page instead of raising, and a seed whose
fetch is empty yields an empty crawl result for every HTML parser, urljoin
and oracle — the extraction/classification stage is never entered. -/
theorem C5_render_failure_yields_empty :
    (∀ (env : BrowserEnv) (url : String),
      env.launch_ok = false ∨ env.navigate_ok = false ∨
        env.script_ok = false →
      fetch_category_page_content env url = "") ∧
    (∀ (b : BrowserEnv) (fa : String → List Anchor)
        (uj : String → String → String)
        (o : List (String × String) → Option String) (url : String),
      fetch_category_page_content b (normalize_seed url) = "" →
      crawl_category_page ⟨b, fa, uj, o⟩ url = []) := by
  constructor
  · intro env url h
    rcases h with h | h | h
    · simp [fetch_category_page_content, fetch_traced, h]
    · cases hl : env.launch_ok <;>
        simp [fetch_category_page_content, fetch_traced, h, hl]
    · cases hl : env.launch_ok <;> cases hn : env.navigate_ok <;>
        simp [fetch_category_page_content, fetch_traced, h, hl, hn]
  · intro b fa uj o url h
    simp [crawl_category_page, h]

/-- C5 witness: a navigation failure gives the empty page, and a crawl of
a seed through that browser gives the empty result. -/
theorem C5_render_failure_yields_empty_witness :
    fetch_category_page_content leakBrowser "http://shop.example.com/sale" =
      "" ∧
    crawl_category_page
      ⟨leakBrowser, fun _ => [demoAnchorJs], fun _ h => h, fun _ => none⟩
      "shop.example.com/sale" = [] :=
  ⟨C5_render_failure_yields_empty.1 leakBrowser
      "http://shop.example.com/sale" (Or.inr (Or.inl rfl)),
   C5_render_failure_yields_empty.2 leakBrowser _ _ _
      "shop.example.com/sale" (by decide)⟩

/-- C6: the scroll loop never exceeds the 10-iteration cap; it stops right
after the first confirming no-change height read — if the height changes
for the first `k < 10` reads and read `k+1` repeats read `k`, exactly
`k + 1` iterations run; and the page whose height grows for 3 iterations
then stabilizes stops at iteration 4. -/
theorem C6_scroll_termination :
    (∀ h : Nat → Int, scroll_iterations h ≤ 10) ∧
    (∀ (h : Nat → Int) (k : Nat), k < 10 →
      (∀ j, j < k → h (j + 1) ≠ h j) → h (k + 1) = h k →
      scroll_iterations h = k + 1) ∧
    scroll_iterations demoHeights = 4 := by
  refine ⟨?_, ?_, by decide⟩
  · intro h
    simpa [scroll_iterations] using scroll_go_le h 10 (h 0) 0
  · intro h k hk hne hstab
    simpa [scroll_iterations] using
      scroll_go_stab h k hk hne hstab 10 0 (by omega) (by omega)

/-- C6 witness: a page stabilizing after five growing reads stops at
iteration 6, well before the cap. -/
theorem C6_scroll_termination_witness :
    scroll_iterations (fun n => if n < 5 then (2 * n : Int) else 10) = 6 :=
  C6_scroll_termination.2.1 _ 5 (by omega) (by decide) (by decide)

/-- C7 (code bug in the source): when the driver is created but
`driver.get` raises, the `except` branch returns the empty page without
executing `driver.quit()`, so the acquired browser session is not released
on that exit path, contradicting the claimed guaranteed teardown. -/
theorem C7_session_not_released_on_failure :
    (fetch_traced leakBrowser "http://shop.example.com/sale").launched =
      true ∧
    (fetch_traced leakBrowser "http://shop.example.com/sale").quit =
      false := by
  decide

/-- C8 counterexample: `ftp://example.com` already carries a scheme yet is
prefixed (because it does not start with the literal "http"), and
`httpfoo.bar/x` carries no scheme yet is left unchanged — both directions
of the claimed iff fail. -/
theorem C8_counterexample :
    (urlparseScheme "ftp://example.com" ≠ "" ∧
      normalize_seed "ftp://example.com" ≠ "ftp://example.com") ∧
    (urlparseScheme "httpfoo.bar/x" = "" ∧
      normalize_seed "httpfoo.bar/x" = "httpfoo.bar/x") := by
  decide

/-- C8 (amended): the crawl prefixes "http://" to the seed if and only if
the seed string does not start with the literal prefix "http"; a seed
starting with "http" is used unchanged (this is a string-prefix test, not
scheme detection). -/
theorem C8_scheme_prefix_rule (url : String) :
    (pyStartsWith url "http" = false →
      normalize_seed url = "http://" ++ url) ∧
    (pyStartsWith url "http" = true → normalize_seed url = url) := by
  constructor <;> intro h <;> simp [normalize_seed, h]

/-- C8 witness: a scheme-less seed is prefixed and an https seed is kept
unchanged. -/
theorem C8_scheme_prefix_rule_witness :
    normalize_seed "example.com/shop" = "http://example.com/shop" ∧
    normalize_seed "https://example.com/shop" = "https://example.com/shop" :=
  ⟨(C8_scheme_prefix_rule "example.com/shop").1 (by decide),
   (C8_scheme_prefix_rule "https://example.com/shop").2 (by decide)⟩

/-- C9: every URL whose parsed netloc is empty (e.g. `javascript:` or
`mailto:` URIs) passes the internal-domain check for any base, and such an
anchor is passed on to classification rather than dropped — concretely the
`javascript:` anchor of `demoEnv` reaches the result set. -/
theorem C9_empty_netloc_is_internal :
    (∀ url base_netloc : String, urlparseNetloc url = "" →
      is_internal_url url base_netloc = true) ∧
    "javascript:alert(1)" ∈
      crawl_category_page demoEnv "http://shop.example.com/sale" := by
  constructor
  · intro url base h
    simp [is_internal_url, h]
  · decide

/-- C9 witness: a `mailto:` URI is judged internal. -/
theorem C9_empty_netloc_is_internal_witness :
    is_internal_url "mailto:sales@example.com" "shop.example.com" = true :=
  C9_empty_netloc_is_internal.1 "mailto:sales@example.com"
    "shop.example.com" (by decide)

/-- C10: in the response parser, a line containing both a YES and a NO
token (after strip and uppercase) contributes an Accept: the YES branch is
checked first, so the appended verdict is "YES". -/
theorem C10_yes_takes_precedence (verdicts : List String)
    (line : List Char)
    (hy : occursIn "YES".toList (pyUpper (pyStrip line)) = true)
    (hn : occursIn "NO".toList (pyUpper (pyStrip line)) = true) :
    parse_step verdicts line = verdicts ++ ["YES"] := by
  unfold parse_step
  dsimp only
  rw [if_pos hy]

/-- C10 witness: the line "3. yes, not no" contains both tokens and yields
a YES verdict. -/
theorem C10_yes_takes_precedence_witness :
    parse_step [] "3. yes, not no".toList = ["YES"] :=
  C10_yes_takes_precedence [] "3. yes, not no".toList
    (by decide) (by decide)
